import Mathlib

/-!
Verification of the npm-audit service against its specification.

The development shallowly embeds the two relevant source files:

* `src/pages/api/npm-audit.ts` — the API route `handler` (the file's first,
  authoritative version): request validation, scratch-directory lifecycle,
  the three `npm` invocations, audit-output parsing and normalization.
* `src/components/NpmAuditDashboard.tsx` — the report generators
  (`generateMarkdownReport`, the PDF details table, the CVSS table cell).

JavaScript runtime values reaching this code are modelled by `JVal`
(JSON values plus `undefined`), with JS truthiness, `typeof`, property
access (throwing on `null`/`undefined` bases) and `||` modelled
explicitly.  Filesystem and process side effects of the handler are
recorded as an `Event` trace; the outcomes of the external `npm`
invocations and of `JSON.parse` are supplied by an `Env`.
-/

namespace NpmAudit

/-- JavaScript values as they appear in this program: JSON values plus
`undefined`.  Numbers are modelled as rationals. -/
inductive JVal where
  | jundefined
  | jnull
  | jbool (b : Bool)
  | jnum (q : ℚ)
  | jstr (s : String)
  | jarr (elems : List JVal)
  | jobj (fields : List (String × JVal))

/-- JS `typeof` on a `JVal` (note `typeof null === "object"`). -/
def typeofStr : JVal → String
  | .jundefined => "undefined"
  | .jnull => "object"
  | .jbool _ => "boolean"
  | .jnum _ => "number"
  | .jstr _ => "string"
  | .jarr _ => "object"
  | .jobj _ => "object"

/-- JS truthiness (`undefined`, `null`, `false`, `0`, `""` are falsy;
a reduced rational is `0` exactly when its numerator is). -/
def truthy : JVal → Bool
  | .jundefined => false
  | .jnull => false
  | .jbool b => b
  | .jnum q => !(q.num == 0)
  | .jstr s => !(s == "")
  | .jarr _ => true
  | .jobj _ => true

/-- Field lookup in an object's field list; missing keys give `undefined`,
as JS property access on objects does. -/
def lookupD (fs : List (String × JVal)) (k : String) : JVal :=
  match fs.lookup k with
  | some v => v
  | none => .jundefined

/-- JS property access `base[k]`: throws a `TypeError` when the base is
`null` or `undefined`, yields `undefined` on primitives (which box to
wrapper objects without such own properties) and on named properties of
arrays, and looks the key up on objects. -/
def getProp : JVal → String → Except String JVal
  | .jundefined, k => .error ("Cannot read properties of undefined: " ++ k)
  | .jnull, k => .error ("Cannot read properties of null: " ++ k)
  | .jobj fs, k => .ok (lookupD fs k)
  | _, _ => .ok .jundefined

/-- Total property access, used only where the surrounding code has
already established that the base is neither `null` nor `undefined`
(so the JS access cannot throw). -/
def propD (v : JVal) (k : String) : JVal :=
  match v with
  | .jobj fs => lookupD fs k
  | _ => .jundefined

/-- JS optional chaining `base?.[k]`: `undefined` when the base is
`null`/`undefined`, ordinary access otherwise. -/
def optChain (v : JVal) (k : String) : JVal :=
  match v with
  | .jundefined => .jundefined
  | .jnull => .jundefined
  | .jobj fs => lookupD fs k
  | _ => .jundefined

/-- JS `a || b`. -/
def jsOr (a b : JVal) : JVal := if truthy a then a else b

/-- `Array.isArray(via) ? via[0] : via`; indexing an empty array gives
`undefined`. -/
def viaFirst : JVal → JVal
  | .jarr [] => .jundefined
  | .jarr (x :: _) => x
  | v => v

/-- Smallest exponent `k ≤ 20` such that `q` has an exact `k`-digit
decimal expansion (i.e. `q.den` divides `10^k`), if any. -/
def decExp (q : ℚ) : Option Nat :=
  (List.range 21).find? fun k => 10 ^ k % q.den == 0

/-- JS number-to-string conversion, for the finite decimals produced by
the audit tool: integers print without a point, other exactly-decimal
rationals print with the shortest exact fraction part (matching how JS
prints such doubles); the `none` fallback is never hit by such values. -/
def decStr (q : ℚ) : String :=
  match decExp q with
  | some 0 => toString q.num
  | some (k + 1) =>
      let n : Int := q.num * ((10 ^ (k + 1) / q.den : Nat) : Int)
      let s := toString n.natAbs
      let s := String.mk (List.replicate (k + 2 - s.length) '0') ++ s
      let cs := s.toList
      let ip := String.mk (cs.take (cs.length - (k + 1)))
      let fp := String.mk (cs.drop (cs.length - (k + 1)))
      (if n < 0 then "-" else "") ++ ip ++ "." ++ fp
  | none => toString q.num ++ "/" ++ toString q.den

/-- JS `Number.prototype.toFixed(1)`: round to one decimal digit
(half away from zero on the nonnegative scores that occur here) and
always print one fraction digit. -/
def toFixed1 (q : ℚ) : String :=
  let n : Int := Int.fdiv (20 * q.num + (q.den : Int)) (2 * (q.den : Int))
  (if n < 0 then "-" else "") ++ toString (n.natAbs / 10) ++ "." ++ toString (n.natAbs % 10)

mutual

/-- JS string coercion as performed by template literals. -/
def templateStr : JVal → String
  | .jundefined => "undefined"
  | .jnull => "null"
  | .jbool b => cond b "true" "false"
  | .jnum q => decStr q
  | .jstr s => s
  | .jarr xs => arrJoinStr xs
  | .jobj _ => "[object Object]"

/-- `Array.prototype.toString`: comma-join the elements, rendering
`null`/`undefined` elements as the empty string. -/
def arrJoinStr : List JVal → String
  | [] => ""
  | [.jundefined] => ""
  | [.jnull] => ""
  | [x] => templateStr x
  | .jundefined :: x :: xs => "," ++ arrJoinStr (x :: xs)
  | .jnull :: x :: xs => "," ++ arrJoinStr (x :: xs)
  | y :: x :: xs => templateStr y ++ "," ++ arrJoinStr (x :: xs)

end

/-- `Object.entries`: field list of an object, indexed entries of an
array or string, empty for other primitives (`null`/`undefined` cannot
reach it here because the call site guards with `|| {}`). -/
def objEntries : JVal → List (String × JVal)
  | .jobj fs => fs
  | .jarr xs => xs.enum.map fun p => (toString p.1, p.2)
  | .jstr s => s.toList.enum.map fun p => (toString p.1, JVal.jstr (String.mk [p.2]))
  | _ => []

/-- The recommendation expression
`info.fixAvailable ? ⟨upgrade template⟩ : 'No specific recommendation'`;
the template accesses `.name`/`.version` only when `fixAvailable` is
truthy, hence never on `null`/`undefined`. -/
def recommendOf (fixAvailable : JVal) : String :=
  if truthy fixAvailable then
    "Upgrade " ++ templateStr (propD fixAvailable "name")
      ++ " to version " ++ templateStr (propD fixAvailable "version")
  else
    "No specific recommendation"

/-- The per-entry callback of
`Object.entries(auditOutput.vulnerabilities || {}).map(...)` in the API
route.  Property accesses that JS evaluates before any later ones, and
that can throw (`info.via`, `info.range`, and `viaInfo.title` when
`typeof viaInfo === 'object'`), are sequenced through `Except`; once
they have succeeded, `info` is not `null`/`undefined` and a guarded
`viaInfo` is a real object, so the remaining accesses are total. -/
def normalizeVuln (name : String) (info : JVal) : Except String JVal :=
  match getProp info "via" with
  | .error e => .error e
  | .ok via =>
    let viaInfo := viaFirst via
    match getProp info "range" with
    | .error e => .error e
    | .ok range =>
      match (if typeofStr viaInfo = "object" then getProp viaInfo "title" else .ok viaInfo) with
      | .error e => .error e
      | .ok vulnerability =>
        .ok (.jobj
          [("name", .jstr name),
           ("version", jsOr range (.jstr "unknown")),
           ("vulnerability", vulnerability),
           ("severity", jsOr (propD info "severity") (.jstr "unknown")),
           ("recommendation", .jstr (recommendOf (propD info "fixAvailable"))),
           ("cvssScore",
             if typeofStr viaInfo = "object" then optChain (propD viaInfo "cvss") "score" else .jundefined),
           ("cvssVector",
             if typeofStr viaInfo = "object" then optChain (propD viaInfo "cvss") "vectorString" else .jundefined),
           ("source",
             if typeofStr viaInfo = "object" then propD viaInfo "source" else .jundefined),
           ("url",
             if typeofStr viaInfo = "object" then propD viaInfo "url" else .jundefined),
           ("cwe",
             if typeofStr viaInfo = "object" then propD viaInfo "cwe" else .jundefined)])

/-- Left-to-right `.map` over the entries, aborting at the first thrown
`TypeError`, as JS does. -/
def normalizeAll : List (String × JVal) → Except String (List JVal)
  | [] => .ok []
  | (n, i) :: rest =>
    match normalizeVuln n i with
    | .error e => .error e
    | .ok r =>
      match normalizeAll rest with
      | .error e => .error e
      | .ok rs => .ok (r :: rs)

/-- An HTTP response: status code and JSON body. -/
structure Response where
  status : Nat
  body : JVal

/-- The 200-path of the route: normalize
`auditOutput.vulnerabilities || {}` and pass `auditOutput.metadata`
through; a thrown `TypeError` propagates to the route's outer catch.
After `auditOutput.vulnerabilities` has been read successfully,
`auditOutput` is not `null`/`undefined`, so the later `metadata` read
is total. -/
def buildAuditResponse (auditOutput : JVal) : Except String Response :=
  match getProp auditOutput "vulnerabilities" with
  | .error e => .error e
  | .ok vulnsVal =>
    match normalizeAll (objEntries (jsOr vulnsVal (.jobj []))) with
    | .error e => .error e
    | .ok vulns =>
      .ok ⟨200, .jobj [("vulnerabilities", .jarr vulns),
                       ("metadata", propD auditOutput "metadata")]⟩

/-- Outcome of one `execPromise` call: fulfilled with captured output,
or rejected with an error object carrying `message`, `stdout` and
`stderr`. -/
inductive ExecResult where
  | ok (stdout stderr : String)
  | err (message stdout stderr : String)

/-- The `stdout` the route's `try`/`catch` extracts from either outcome. -/
def capturedOut : ExecResult → String
  | .ok o _ => o
  | .err _ o _ => o

/-- The `stderr` the route's `try`/`catch` extracts from either outcome. -/
def capturedErr : ExecResult → String
  | .ok _ e => e
  | .err _ _ e => e

/-- Environment of one request: outcomes of the three `npm` invocations
and the behaviour of `JSON.parse` (abstract: `.error` is a thrown
`SyntaxError` with its message). -/
structure Env where
  lockfile : ExecResult
  install : ExecResult
  audit : ExecResult
  parse : String → Except String JVal

/-- Observable side effects of the route, in program order. -/
inductive Event where
  | mkTempDir
  | writeFile (name : String) (content : JVal)
  | execCmd (cmd : String)
  | rmTempDir

/-- Command of the first invocation (lockfile-only resolution). -/
def npmCmdLock : String := "npm install --package-lock-only --ignore-scripts"

/-- Command of the second invocation (dependency install). -/
def npmCmdInstall : String := "npm install --ignore-scripts"

/-- Command of the third invocation (the audit). -/
def npmCmdAudit : String := "npm audit --json --omit=dev"

/-- The synthetic manifest object written as `package.json`. -/
def manifestFor (dependencies : JVal) : JVal :=
  .jobj [("name", .jstr "temp-package"),
         ("version", .jstr "1.0.0"),
         ("dependencies", dependencies)]

/-- Response produced by the route's outer `catch` (stack traces are
outside the model). -/
def catchResponse (msg : String) : Response :=
  ⟨500, .jobj [("error", .jstr "Failed to perform npm audit"),
               ("details", .jstr msg),
               ("stack", .jstr "")]⟩

/-- The API route `handler` of `src/pages/api/npm-audit.ts`, returning
the response together with the trace of side effects that occurred
before it was sent.  The source guard
`if (!dependencies || typeof dependencies !== 'object') return 400`
is rendered as the equivalent positive conditional. -/
def handler (method : String) (body : JVal) (env : Env) : Response × List Event :=
  if method ≠ "POST" then
    (⟨405, .jobj [("message", .jstr "Method Not Allowed")]⟩, [])
  else
    match getProp body "dependencies" with
    | .error msg => (catchResponse msg, [])
    | .ok dependencies =>
      if truthy dependencies = true ∧ typeofStr dependencies = "object" then
        let ev := [Event.mkTempDir,
                   Event.writeFile "package.json" (manifestFor dependencies),
                   Event.execCmd npmCmdLock]
        match env.lockfile with
        | .err msg _ _ =>
          (⟨500, .jobj [("error", .jstr "Failed to create package-lock.json"),
                        ("details", .jstr msg)]⟩, ev)
        | .ok _ _ =>
          let ev := ev ++ [Event.execCmd npmCmdInstall, Event.execCmd npmCmdAudit]
          let stdoutAudit := capturedOut env.audit
          let stderrAudit := capturedErr env.audit
          let ev := ev ++ [Event.rmTempDir]
          let resp :=
            match env.parse stdoutAudit with
            | .error msg =>
              ⟨500, .jobj [("error", .jstr "Failed to parse npm audit output"),
                           ("details", .jstr msg),
                           ("stdoutAudit", .jstr stdoutAudit),
                           ("stderrAudit", .jstr stderrAudit)]⟩
            | .ok auditOutput =>
              match buildAuditResponse auditOutput with
              | .error msg => catchResponse msg
              | .ok r => r
          (resp, ev)
      else
        (⟨400, .jobj [("error", .jstr "Invalid dependencies format")]⟩, [])

/-- Whether an event is the scratch-directory removal. -/
def isRmEvent : Event → Bool
  | .rmTempDir => true
  | _ => false

/-- Whether an event is the scratch-directory creation. -/
def isMkEvent : Event → Bool
  | .mkTempDir => true
  | _ => false

/-- The external commands of a trace, in order. -/
def execCmds (evs : List Event) : List String :=
  evs.filterMap fun e =>
    match e with
    | .execCmd c => some c
    | _ => none

/-- The files written during a trace, in order. -/
def writtenFiles (evs : List Event) : List (String × JVal) :=
  evs.filterMap fun e =>
    match e with
    | .writeFile n c => some (n, c)
    | _ => none

/-- The metadata sub-object's total count, `metadata.vulnerabilities.total`. -/
def summaryTotal (metadata : JVal) : JVal :=
  optChain (optChain metadata "vulnerabilities") "total"

/-- The dashboard's `AuditResult` record (`NpmAuditDashboard.tsx`);
optional fields model the `?:` members. -/
structure AuditResult where
  name : String
  version : String
  vulnerability : String
  severity : String
  recommendation : String
  cvssScore : Option ℚ
  cvssVector : Option String
  source : Option Int
  url : Option String
  cwe : Option (List String)

/-- The dashboard's `AuditSummary` record. -/
structure AuditSummary where
  info : Nat
  low : Nat
  moderate : Nat
  high : Nat
  critical : Nat
  total : Nat

/-- `${x || 0}` for an optionally-present count. -/
def mdSummaryVal (v : Option Nat) : String := toString (v.getD 0)

/-- The Markdown row's CVSS cell, `${result.cvssScore || 'N/A'}`:
a missing score, and a score of exactly `0` (falsy), render as `N/A`. -/
def mdCvss : Option ℚ → String
  | none => "N/A"
  | some q => if q.num == 0 then "N/A" else decStr q

/-- The PDF row's CVSS cell, `result.cvssScore?.toString() || 'N/A'`:
a missing score short-circuits to `undefined` and falls back to `N/A`;
a present score (including `0`) stringifies to a nonempty — hence
truthy — string. -/
def pdfCvss : Option ℚ → String
  | none => "N/A"
  | some q => let s := decStr q; if s == "" then "N/A" else s

/-- The table's CVSS Score column cell: when the score is truthy it
renders `toFixed(1)` plus the vector line (an absent vector renders as
nothing), otherwise the single text `N/A`. -/
def cvssScoreCell (score : Option ℚ) (vector : Option String) : List String :=
  match score with
  | none => ["N/A"]
  | some q => if q.num == 0 then ["N/A"] else [toFixed1 q, vector.getD ""]

/-- One data row of the Markdown details table, exactly the template of
the `forEach` body in `generateMarkdownReport`. -/
def mdRowStr (r : AuditResult) : String :=
  "| " ++ r.name ++ " | " ++ r.version ++ " | " ++ r.vulnerability ++ " | "
    ++ r.severity ++ " | " ++ mdCvss r.cvssScore ++ " | " ++ r.recommendation ++ " |\n"

/-- `generateMarkdownReport` of the dashboard: title, summary bullets,
details-table header, then one row appended per record via `forEach`
(`auditResults?.forEach` does nothing when the list is absent). -/
def generateMarkdownReport (auditResults : Option (List AuditResult))
    (auditSummary : Option AuditSummary) : String :=
  let markdown := "# NPM Audit Report\n\n"
  let markdown := markdown ++ "## Vulnerability Summary\n\n"
  let markdown := markdown ++ "- Total: " ++ mdSummaryVal (auditSummary.map AuditSummary.total) ++ "\n"
  let markdown := markdown ++ "- Critical: " ++ mdSummaryVal (auditSummary.map AuditSummary.critical) ++ "\n"
  let markdown := markdown ++ "- High: " ++ mdSummaryVal (auditSummary.map AuditSummary.high) ++ "\n"
  let markdown := markdown ++ "- Moderate: " ++ mdSummaryVal (auditSummary.map AuditSummary.moderate) ++ "\n"
  let markdown := markdown ++ "- Low: " ++ mdSummaryVal (auditSummary.map AuditSummary.low) ++ "\n"
  let markdown := markdown ++ "- Info: " ++ mdSummaryVal (auditSummary.map AuditSummary.info) ++ "\n\n"
  let markdown := markdown ++ "## Vulnerability Details\n\n"
  let markdown := markdown ++ "| Package | Version | Vulnerability | Severity | CVSS Score | Recommendation |\n"
  let markdown := markdown ++ "|---------|---------|---------------|----------|------------|----------------|\n"
  (auditResults.getD []).foldl (fun md r => md ++ mdRowStr r) markdown

/-- One body row of the PDF details table, as mapped in
`generatePDFReport`. -/
def pdfRow (r : AuditResult) : List String :=
  [r.name, r.version, r.vulnerability, r.severity, pdfCvss r.cvssScore, r.recommendation]

/-- The PDF details-table body, `auditResults?.map(...) || []`. -/
def pdfTableData (auditResults : Option (List AuditResult)) : List (List String) :=
  (auditResults.map fun rs => rs.map pdfRow).getD []

/-- Concatenation of a list of row strings. -/
def concatRows (l : List String) : String := l.foldr (· ++ ·) ""

theorem foldl_append_concatRows {α : Type} (f : α → String) :
    ∀ (l : List α) (init : String),
      l.foldl (fun md r => md ++ f r) init = init ++ concatRows (l.map f)
  | [], init => by simp [concatRows]
  | a :: l, init => by
      have ih := foldl_append_concatRows f l (init ++ f a)
      simp only [List.foldl_cons, ih, List.map_cons, concatRows, List.foldr_cons]
      rw [String.append_assoc]

/-- C7: for a finding whose `via` value is a list, normalization takes
its first element (later elements are ignored) and extracts title,
CVSS score and vector, source, URL and weakness classifications from
it; a missing version range or severity yields the string `unknown`, a
present (truthy) one is kept; a missing fix yields the fallback
recommendation and a present one the upgrade suggestion; a missing
title leaves the vulnerability field absent (`undefined`). -/
theorem via_first_normalization (name : String) (fields vf : List (String × JVal))
    (rest : List JVal)
    (hvia : lookupD fields "via" = .jarr (.jobj vf :: rest)) :
    ∃ rec : List (String × JVal),
      normalizeVuln name (.jobj fields) = .ok (.jobj rec)
      ∧ lookupD rec "name" = .jstr name
      ∧ lookupD rec "vulnerability" = lookupD vf "title"
      ∧ lookupD rec "cvssScore" = optChain (lookupD vf "cvss") "score"
      ∧ lookupD rec "cvssVector" = optChain (lookupD vf "cvss") "vectorString"
      ∧ lookupD rec "source" = lookupD vf "source"
      ∧ lookupD rec "url" = lookupD vf "url"
      ∧ lookupD rec "cwe" = lookupD vf "cwe"
      ∧ (lookupD fields "range" = .jundefined → lookupD rec "version" = .jstr "unknown")
      ∧ (truthy (lookupD fields "range") = true →
          lookupD rec "version" = lookupD fields "range")
      ∧ (lookupD fields "severity" = .jundefined → lookupD rec "severity" = .jstr "unknown")
      ∧ (truthy (lookupD fields "severity") = true →
          lookupD rec "severity" = lookupD fields "severity")
      ∧ (lookupD fields "fixAvailable" = .jundefined →
          lookupD rec "recommendation" = .jstr "No specific recommendation")
      ∧ (∀ fa : List (String × JVal), lookupD fields "fixAvailable" = .jobj fa →
          lookupD rec "recommendation"
            = .jstr ("Upgrade " ++ templateStr (lookupD fa "name")
                ++ " to version " ++ templateStr (lookupD fa "version")))
      ∧ (lookupD vf "title" = .jundefined → lookupD rec "vulnerability" = .jundefined) := by
  refine ⟨[("name", .jstr name),
           ("version", jsOr (lookupD fields "range") (.jstr "unknown")),
           ("vulnerability", lookupD vf "title"),
           ("severity", jsOr (lookupD fields "severity") (.jstr "unknown")),
           ("recommendation", .jstr (recommendOf (lookupD fields "fixAvailable"))),
           ("cvssScore", optChain (lookupD vf "cvss") "score"),
           ("cvssVector", optChain (lookupD vf "cvss") "vectorString"),
           ("source", lookupD vf "source"),
           ("url", lookupD vf "url"),
           ("cwe", lookupD vf "cwe")],
          ?_, rfl, rfl, rfl, rfl, rfl, rfl, rfl, ?_, ?_, ?_, ?_, ?_, ?_, ?_⟩
  · simp [normalizeVuln, getProp, hvia, viaFirst, typeofStr, propD]
  · intro h
    show jsOr (lookupD fields "range") (.jstr "unknown") = _
    rw [h]
    rfl
  · intro h
    show jsOr (lookupD fields "range") (.jstr "unknown") = _
    simp [jsOr, h]
  · intro h
    show jsOr (lookupD fields "severity") (.jstr "unknown") = _
    rw [h]
    rfl
  · intro h
    show jsOr (lookupD fields "severity") (.jstr "unknown") = _
    simp [jsOr, h]
  · intro h
    show JVal.jstr (recommendOf (lookupD fields "fixAvailable")) = _
    rw [h]
    rfl
  · intro fa h
    show JVal.jstr (recommendOf (lookupD fields "fixAvailable")) = _
    rw [h]
    simp [recommendOf, truthy, propD]
  · intro h
    show lookupD vf "title" = _
    exact h

/-- Witness for C7 at a concrete finding whose `via` is a
single-advisory list. -/
theorem via_first_normalization_witness :
    ∃ rec : List (String × JVal),
      normalizeVuln "minimist" (.jobj [("via", .jarr [.jobj [("title", .jstr "Prototype Pollution")]])])
          = .ok (.jobj rec)
      ∧ lookupD rec "name" = .jstr "minimist"
      ∧ lookupD rec "vulnerability" = lookupD [("title", JVal.jstr "Prototype Pollution")] "title"
      ∧ lookupD rec "cvssScore"
          = optChain (lookupD [("title", JVal.jstr "Prototype Pollution")] "cvss") "score"
      ∧ lookupD rec "cvssVector"
          = optChain (lookupD [("title", JVal.jstr "Prototype Pollution")] "cvss") "vectorString"
      ∧ lookupD rec "source" = lookupD [("title", JVal.jstr "Prototype Pollution")] "source"
      ∧ lookupD rec "url" = lookupD [("title", JVal.jstr "Prototype Pollution")] "url"
      ∧ lookupD rec "cwe" = lookupD [("title", JVal.jstr "Prototype Pollution")] "cwe"
      ∧ (lookupD [("via", JVal.jarr [.jobj [("title", .jstr "Prototype Pollution")]])] "range" = .jundefined →
          lookupD rec "version" = .jstr "unknown")
      ∧ (truthy (lookupD [("via", JVal.jarr [.jobj [("title", .jstr "Prototype Pollution")]])] "range") = true →
          lookupD rec "version"
            = lookupD [("via", JVal.jarr [.jobj [("title", .jstr "Prototype Pollution")]])] "range")
      ∧ (lookupD [("via", JVal.jarr [.jobj [("title", .jstr "Prototype Pollution")]])] "severity" = .jundefined →
          lookupD rec "severity" = .jstr "unknown")
      ∧ (truthy (lookupD [("via", JVal.jarr [.jobj [("title", .jstr "Prototype Pollution")]])] "severity") = true →
          lookupD rec "severity"
            = lookupD [("via", JVal.jarr [.jobj [("title", .jstr "Prototype Pollution")]])] "severity")
      ∧ (lookupD [("via", JVal.jarr [.jobj [("title", .jstr "Prototype Pollution")]])] "fixAvailable" = .jundefined →
          lookupD rec "recommendation" = .jstr "No specific recommendation")
      ∧ (∀ fa : List (String × JVal),
          lookupD [("via", JVal.jarr [.jobj [("title", .jstr "Prototype Pollution")]])] "fixAvailable" = .jobj fa →
          lookupD rec "recommendation"
            = .jstr ("Upgrade " ++ templateStr (lookupD fa "name")
                ++ " to version " ++ templateStr (lookupD fa "version")))
      ∧ (lookupD [("title", JVal.jstr "Prototype Pollution")] "title" = .jundefined →
          lookupD rec "vulnerability" = .jundefined) :=
  via_first_normalization "minimist"
    [("via", .jarr [.jobj [("title", .jstr "Prototype Pollution")]])]
    [("title", .jstr "Prototype Pollution")] [] rfl

/-- C9: for every normalized result list, the generated Markdown report
and the generated PDF details table each contain exactly one row per
record of the list, in list order, and no other data rows: the Markdown
report is the row-free report followed by the concatenation of one
`mdRowStr` per record in order, and the PDF body is the image of the
list under `pdfRow`, preserving length and positions. -/
theorem markdown_pdf_one_row_per_record (rs : List AuditResult)
    (s : Option AuditSummary) (i : Nat) :
    generateMarkdownReport (some rs) s
        = generateMarkdownReport none s ++ concatRows (rs.map mdRowStr)
      ∧ pdfTableData (some rs) = rs.map pdfRow
      ∧ (pdfTableData (some rs)).length = rs.length
      ∧ (pdfTableData (some rs))[i]? = (rs[i]?).map pdfRow := by
  refine ⟨?_, rfl, ?_, ?_⟩
  · exact foldl_append_concatRows mdRowStr rs (generateMarkdownReport none s)
  · simp [pdfTableData]
  · simp [pdfTableData, List.getElem?_map]

/-- C10: a record whose CVSS score is exactly 0 renders as `N/A` in the
Markdown report's CVSS cell and in the table's CVSS Score column
(where `0` is falsy), but the PDF details table renders it as `0`
(`toString` of `0` is the truthy string `"0"`). -/
theorem cvss_zero_rendering (r : AuditResult) (h : r.cvssScore = some 0) :
    mdCvss r.cvssScore = "N/A"
      ∧ cvssScoreCell r.cvssScore r.cvssVector = ["N/A"]
      ∧ pdfCvss r.cvssScore = "0" := by
  rw [h]
  exact ⟨rfl, rfl, rfl⟩

/-- Witness for C10 at a concrete record with score 0. -/
theorem cvss_zero_rendering_witness :
    mdCvss (AuditResult.mk "lodash" "<4.17.21" "Prototype Pollution" "high"
        "No specific recommendation" (some 0) none none none none).cvssScore = "N/A"
      ∧ cvssScoreCell (AuditResult.mk "lodash" "<4.17.21" "Prototype Pollution" "high"
          "No specific recommendation" (some 0) none none none none).cvssScore
        (AuditResult.mk "lodash" "<4.17.21" "Prototype Pollution" "high"
          "No specific recommendation" (some 0) none none none none).cvssVector = ["N/A"]
      ∧ pdfCvss (AuditResult.mk "lodash" "<4.17.21" "Prototype Pollution" "high"
          "No specific recommendation" (some 0) none none none none).cvssScore = "0" :=
  cvss_zero_rendering (AuditResult.mk "lodash" "<4.17.21" "Prototype Pollution" "high"
    "No specific recommendation" (some 0) none none none none) rfl

/-- The trace of a request that aborts at lockfile generation:
directory created, manifest written, first invocation only. -/
def abortedTrace (deps : JVal) : List Event :=
  [.mkTempDir, .writeFile "package.json" (manifestFor deps), .execCmd npmCmdLock]

/-- The trace of a request that completes all three invocations:
directory created, manifest written, the three invocations, removal. -/
def pipelineTrace (deps : JVal) : List Event :=
  [.mkTempDir, .writeFile "package.json" (manifestFor deps),
   .execCmd npmCmdLock, .execCmd npmCmdInstall, .execCmd npmCmdAudit, .rmTempDir]

/-- A sample environment: both installs succeed silently, the audit
succeeds with empty output, and parsing that output throws. -/
def env0 : Env :=
  ⟨.ok "" "", .ok "" "", .ok "" "", fun _ => .error "Unexpected end of JSON input"⟩

theorem handler_ok_lockfile (body deps : JVal) (lo le : String) (inst aud : ExecResult)
    (p : String → Except String JVal) (hd : getProp body "dependencies" = .ok deps)
    (hv : truthy deps = true) (ht : typeofStr deps = "object") :
    handler "POST" body ⟨.ok lo le, inst, aud, p⟩
      = (match p (capturedOut aud) with
         | .error msg =>
           ⟨500, .jobj [("error", .jstr "Failed to parse npm audit output"),
                        ("details", .jstr msg),
                        ("stdoutAudit", .jstr (capturedOut aud)),
                        ("stderrAudit", .jstr (capturedErr aud))]⟩
         | .ok auditOutput =>
           match buildAuditResponse auditOutput with
           | .error msg => catchResponse msg
           | .ok r => r,
         pipelineTrace deps) := by
  simp [handler, hd, hv, ht, pipelineTrace]

theorem handler_err_lockfile (body deps : JVal) (m o e : String) (inst aud : ExecResult)
    (p : String → Except String JVal) (hd : getProp body "dependencies" = .ok deps)
    (hv : truthy deps = true) (ht : typeofStr deps = "object") :
    handler "POST" body ⟨.err m o e, inst, aud, p⟩
      = (⟨500, .jobj [("error", .jstr "Failed to create package-lock.json"),
                      ("details", .jstr m)]⟩, abortedTrace deps) := by
  simp [handler, hd, hv, ht, abortedTrace]

/-- C1 (amended): a request that passes validation and whose lockfile
generation succeeds has its scratch directory removed exactly once, as
the last side effect before the response, whatever the audit and parse
outcomes; but on lockfile-generation failure the endpoint responds 500
without removing the directory. -/
theorem cleanup_after_invocations (body deps : JVal) (lo le m o e : String)
    (inst aud : ExecResult) (p : String → Except String JVal)
    (hd : getProp body "dependencies" = .ok deps)
    (hv : truthy deps = true) (ht : typeofStr deps = "object") :
    ((handler "POST" body ⟨.ok lo le, inst, aud, p⟩).2.countP isRmEvent = 1
      ∧ (handler "POST" body ⟨.ok lo le, inst, aud, p⟩).2.getLast? = some Event.rmTempDir)
    ∧ ((handler "POST" body ⟨.err m o e, inst, aud, p⟩).2.countP isRmEvent = 0
      ∧ (handler "POST" body ⟨.err m o e, inst, aud, p⟩).1.status = 500) := by
  rw [handler_ok_lockfile body deps lo le inst aud p hd hv ht,
    handler_err_lockfile body deps m o e inst aud p hd hv ht]
  refine ⟨⟨rfl, rfl⟩, rfl, rfl⟩

/-- C1 counterexample: a completed request whose lockfile generation
fails responds 500 while its trace contains a directory creation but no
directory removal — the scratch directory outlives the response. -/
theorem cleanup_missed_on_lockfile_failure :
    (handler "POST" (.jobj [("dependencies", .jobj [("left-pad", .jstr "^1.3.0")])])
        ⟨.err "npm exited 1" "" "", .ok "" "", .ok "" "",
         fun _ => .error "Unexpected end of JSON input"⟩).1.status = 500
    ∧ (handler "POST" (.jobj [("dependencies", .jobj [("left-pad", .jstr "^1.3.0")])])
        ⟨.err "npm exited 1" "" "", .ok "" "", .ok "" "",
         fun _ => .error "Unexpected end of JSON input"⟩).2.countP isMkEvent = 1
    ∧ (handler "POST" (.jobj [("dependencies", .jobj [("left-pad", .jstr "^1.3.0")])])
        ⟨.err "npm exited 1" "" "", .ok "" "", .ok "" "",
         fun _ => .error "Unexpected end of JSON input"⟩).2.countP isRmEvent = 0 :=
  ⟨rfl, rfl, rfl⟩

/-- C2 (amended): a POST whose body lacks a `dependencies` field, or
whose `dependencies` value is not both truthy and of JS type "object"
(note arrays satisfy the check and are accepted), gets a 400
input-validation response with an empty side-effect trace — no scratch
directory, no invocation. -/
theorem invalid_deps_rejected (bf : List (String × JVal)) (env : Env)
    (h : ¬ (truthy (lookupD bf "dependencies") = true
            ∧ typeofStr (lookupD bf "dependencies") = "object")) :
    handler "POST" (.jobj bf) env
      = (⟨400, .jobj [("error", .jstr "Invalid dependencies format")]⟩, []) := by
  have hne : ¬ ("POST" ≠ "POST") := fun hc => hc rfl
  simp only [handler, if_neg hne, getProp]
  rw [if_neg h]

/-- C2 counterexample: an array is not a key/value dependency mapping,
yet `dependencies: []` passes the guard — the endpoint does not answer
400, creates the scratch directory and invokes the package manager. -/
theorem array_deps_accepted :
    (handler "POST" (.jobj [("dependencies", .jarr [])]) env0).1.status = 500
    ∧ (handler "POST" (.jobj [("dependencies", .jarr [])]) env0).1.status ≠ 400
    ∧ (handler "POST" (.jobj [("dependencies", .jarr [])]) env0).2.countP isMkEvent = 1
    ∧ execCmds (handler "POST" (.jobj [("dependencies", .jarr [])]) env0).2
        = [npmCmdLock, npmCmdInstall, npmCmdAudit] :=
  ⟨rfl, by decide, rfl, rfl⟩

/-- A sample valid dependency mapping. -/
def depsZero : JVal := .jobj [("lodash", .jstr "4.17.21")]

/-- A sample request body carrying `depsZero`. -/
def bodyZero : JVal := .jobj [("dependencies", depsZero)]

/-- A sample audit metadata object with all counts zero. -/
def metadataZero : JVal :=
  .jobj [("vulnerabilities",
          .jobj [("info", .jnum 0), ("low", .jnum 0), ("moderate", .jnum 0),
                 ("high", .jnum 0), ("critical", .jnum 0), ("total", .jnum 0)])]

/-- A sample parsed audit output reporting zero vulnerabilities. -/
def auditOutputZero : JVal :=
  .jobj [("vulnerabilities", .jobj []), ("metadata", metadataZero)]

/-- An environment whose audit output parses to `auditOutputZero`. -/
def envZero : Env :=
  ⟨.ok "" "", .ok "" "", .ok "audit-json" "", fun _ => .ok auditOutputZero⟩

/-- Witness for C1 at a concrete request, once with a succeeding and
once with a failing lockfile invocation. -/
theorem cleanup_after_invocations_witness :
    ((handler "POST" bodyZero env0).2.countP isRmEvent = 1
      ∧ (handler "POST" bodyZero env0).2.getLast? = some Event.rmTempDir)
    ∧ ((handler "POST" bodyZero
          ⟨.err "npm exited 1" "" "", .ok "" "", .ok "" "",
           fun _ => .error "Unexpected end of JSON input"⟩).2.countP isRmEvent = 0
      ∧ (handler "POST" bodyZero
          ⟨.err "npm exited 1" "" "", .ok "" "", .ok "" "",
           fun _ => .error "Unexpected end of JSON input"⟩).1.status = 500) :=
  cleanup_after_invocations bodyZero depsZero "" "" "npm exited 1" "" ""
    (.ok "" "") (.ok "" "") (fun _ => .error "Unexpected end of JSON input") rfl rfl rfl

/-- Witness for C2 at a body with no `dependencies` field. -/
theorem invalid_deps_rejected_witness :
    handler "POST" (.jobj []) env0
      = (⟨400, .jobj [("error", .jstr "Invalid dependencies format")]⟩, []) :=
  invalid_deps_rejected [] env0 (by decide)

/-- C3: for every valid dependency mapping, the manifest written into
the scratch directory is the JSON object with the fixed placeholder
name `temp-package`, the fixed placeholder version `1.0.0`, and exactly
the supplied mapping, verbatim, under `dependencies` — and it is the
only file the route writes, whatever the environment does. -/
theorem manifest_contents (body : JVal) (dm : List (String × JVal)) (env : Env)
    (hd : getProp body "dependencies" = .ok (.jobj dm)) :
    writtenFiles (handler "POST" body env).2
      = [("package.json",
          .jobj [("name", .jstr "temp-package"), ("version", .jstr "1.0.0"),
                 ("dependencies", .jobj dm)])] := by
  obtain ⟨lf, inst, aud, p⟩ := env
  cases lf with
  | ok lo le =>
      rw [handler_ok_lockfile body (.jobj dm) lo le inst aud p hd rfl rfl]
      rfl
  | err m o e =>
      rw [handler_err_lockfile body (.jobj dm) m o e inst aud p hd rfl rfl]
      rfl

/-- Witness for C3 at a concrete mapping. -/
theorem manifest_contents_witness :
    writtenFiles (handler "POST" bodyZero env0).2
      = [("package.json",
          .jobj [("name", .jstr "temp-package"), ("version", .jstr "1.0.0"),
                 ("dependencies", depsZero)])] :=
  manifest_contents bodyZero [("lodash", .jstr "4.17.21")] env0 rfl

/-- C4 (amended): every request that passes validation and whose
lockfile invocation succeeds runs exactly three package-manager
commands, in order: lockfile-only resolution, then a dependency
install populating `node_modules`, then the audit. -/
theorem three_invocations (body deps : JVal) (lo le : String) (inst aud : ExecResult)
    (p : String → Except String JVal) (hd : getProp body "dependencies" = .ok deps)
    (hv : truthy deps = true) (ht : typeofStr deps = "object") :
    execCmds (handler "POST" body ⟨.ok lo le, inst, aud, p⟩).2
        = [npmCmdLock, npmCmdInstall, npmCmdAudit]
      ∧ (execCmds (handler "POST" body ⟨.ok lo le, inst, aud, p⟩).2).length = 3 := by
  rw [handler_ok_lockfile body deps lo le inst aud p hd hv ht]
  exact ⟨rfl, rfl⟩

/-- Witness for C4 at a concrete request. -/
theorem three_invocations_witness :
    execCmds (handler "POST" bodyZero env0).2
        = [npmCmdLock, npmCmdInstall, npmCmdAudit]
      ∧ (execCmds (handler "POST" bodyZero env0).2).length = 3 :=
  three_invocations bodyZero depsZero "" "" (.ok "" "") (.ok "" "")
    (fun _ => .error "Unexpected end of JSON input") rfl rfl rfl

/-- C4 counterexample: a completed pipeline runs three external
commands, not two — a full `npm install` sits between the lockfile-only
resolution and the audit. -/
theorem extra_install_invocation :
    execCmds (handler "POST" bodyZero env0).2
        = [npmCmdLock, npmCmdInstall, npmCmdAudit]
      ∧ (execCmds (handler "POST" bodyZero env0).2).length ≠ 2 :=
  ⟨rfl, by decide⟩

/-- C6: whenever `JSON.parse` rejects the audit stdout, the route
responds 500 with the parse-error message and the raw captured stdout
and stderr attached to the body. -/
theorem parse_failure_response (body deps : JVal) (lo le msg : String)
    (inst aud : ExecResult) (p : String → Except String JVal)
    (hd : getProp body "dependencies" = .ok deps)
    (hv : truthy deps = true) (ht : typeofStr deps = "object")
    (hp : p (capturedOut aud) = .error msg) :
    handler "POST" body ⟨.ok lo le, inst, aud, p⟩
      = (⟨500, .jobj [("error", .jstr "Failed to parse npm audit output"),
                      ("details", .jstr msg),
                      ("stdoutAudit", .jstr (capturedOut aud)),
                      ("stderrAudit", .jstr (capturedErr aud))]⟩, pipelineTrace deps) := by
  rw [handler_ok_lockfile body deps lo le inst aud p hd hv ht, hp]

/-- Witness for C6 at a concrete request whose audit output is not JSON. -/
theorem parse_failure_response_witness :
    handler "POST" bodyZero env0
      = (⟨500, .jobj [("error", .jstr "Failed to parse npm audit output"),
                      ("details", .jstr "Unexpected end of JSON input"),
                      ("stdoutAudit", .jstr ""),
                      ("stderrAudit", .jstr "")]⟩, pipelineTrace depsZero) :=
  parse_failure_response bodyZero depsZero "" "" "Unexpected end of JSON input"
    (.ok "" "") (.ok "" "") (fun _ => .error "Unexpected end of JSON input") rfl rfl rfl rfl

/-- C8: when the parsed audit output has an absent or empty
`vulnerabilities` object and its metadata records a total of zero, the
route responds 200 with an empty vulnerability list and with the
metadata passed through unchanged as the summary, whose total is zero. -/
theorem zero_vulnerabilities_response (body deps md : JVal)
    (ofields : List (String × JVal)) (lo le : String) (inst aud : ExecResult)
    (p : String → Except String JVal)
    (hd : getProp body "dependencies" = .ok deps)
    (hv : truthy deps = true) (ht : typeofStr deps = "object")
    (hp : p (capturedOut aud) = .ok (.jobj ofields))
    (hvuln : lookupD ofields "vulnerabilities" = .jundefined
             ∨ lookupD ofields "vulnerabilities" = .jobj [])
    (hmd : lookupD ofields "metadata" = md)
    (htot : summaryTotal md = .jnum 0) :
    handler "POST" body ⟨.ok lo le, inst, aud, p⟩
        = (⟨200, .jobj [("vulnerabilities", .jarr []), ("metadata", md)]⟩,
           pipelineTrace deps)
      ∧ summaryTotal md = .jnum 0 := by
  refine ⟨?_, htot⟩
  rw [handler_ok_lockfile body deps lo le inst aud p hd hv ht, hp]
  have hb : buildAuditResponse (.jobj ofields)
      = .ok ⟨200, .jobj [("vulnerabilities", .jarr []), ("metadata", md)]⟩ := by
    rcases hvuln with h | h <;>
      simp [buildAuditResponse, getProp, h, jsOr, truthy, objEntries, normalizeAll, propD, hmd]
  simp [hb]

/-- Witness for C8 at a concrete zero-vulnerability audit output. -/
theorem zero_vulnerabilities_response_witness :
    handler "POST" bodyZero envZero
        = (⟨200, .jobj [("vulnerabilities", .jarr []), ("metadata", metadataZero)]⟩,
           pipelineTrace depsZero)
      ∧ summaryTotal metadataZero = .jnum 0 :=
  zero_vulnerabilities_response bodyZero depsZero metadataZero
    [("vulnerabilities", .jobj []), ("metadata", metadataZero)] "" ""
    (.ok "" "") (.ok "audit-json" "") (fun _ => .ok auditOutputZero)
    rfl rfl rfl rfl (Or.inr rfl) rfl rfl

/-- C5: a rejected audit invocation is not treated as a failure — the
route falls back to the `stdout`/`stderr` captured on the error object
and behaves exactly as if the invocation had fulfilled with that same
output, continuing to the parsing step. -/
theorem audit_failure_tolerated (method : String) (body : JVal) (lf inst : ExecResult)
    (m out errS : String) (p : String → Except String JVal) :
    handler method body ⟨lf, inst, .err m out errS, p⟩
      = handler method body ⟨lf, inst, .ok out errS, p⟩ := rfl

end NpmAudit
